import Mathlib

/-!
Verification development for the nwb-best-practices-inspector repository.

The definitions below are a shallow embedding of the Python source under
`src/nwbinspector/`:

* `configure_checks`, `run_checks`, `inspect_nwb`, `inspect_all` embed the
  functions of the same names in `src/nwbinspector/nwbinspector.py`;
* `organize_messages_by_file` and `format_organized_results_output` embed
  `organize_messages_by_file` (nwbinspector.py) and
  `format_organized_results_output` (inspector_tools.py).

Python mutation of the shared check registry is made explicit: a "list of
checks" held by the caller is a list of indices (`List Nat`) into a registry
(`List Check`), and `configure_checks` returns the updated registry along
with the returned index list.

Generator semantics are embedded by returning the list of items the
generator yields together with an optional terminal Python exception
(`Option PyErr`): a generator that raises after yielding some items is
modelled as `(yielded items, some error)`.
-/

namespace NwbInspector

/-- Modelled from the spec: the `Importance` enum of `register_checks.py`
(that module is not under `src/`).  Ascending order
`BEST_PRACTICE_SUGGESTION < BEST_PRACTICE_VIOLATION < CRITICAL`, with the two
out-of-band administrative levels `PYNWB_VALIDATION` and `ERROR` on top. -/
inductive Importance
  | BEST_PRACTICE_SUGGESTION
  | BEST_PRACTICE_VIOLATION
  | CRITICAL
  | PYNWB_VALIDATION
  | ERROR
deriving DecidableEq

/-- Numeric `.value` of each `Importance` member, in the spec's ascending order. -/
def Importance.value : Importance → Nat
  | .BEST_PRACTICE_SUGGESTION => 0
  | .BEST_PRACTICE_VIOLATION => 1
  | .CRITICAL => 2
  | .PYNWB_VALIDATION => 3
  | .ERROR => 4

/-- The `.name` attribute of each `Importance` member. -/
def Importance.pyname : Importance → String
  | .BEST_PRACTICE_SUGGESTION => "BEST_PRACTICE_SUGGESTION"
  | .BEST_PRACTICE_VIOLATION => "BEST_PRACTICE_VIOLATION"
  | .CRITICAL => "CRITICAL"
  | .PYNWB_VALIDATION => "PYNWB_VALIDATION"
  | .ERROR => "ERROR"

/-- Modelled from the spec: the `Severity` enum of `register_checks.py`
(`LOW < HIGH`, plus an unassigned sentinel sorting below both). -/
inductive Severity
  | NO_SEVERITY
  | LOW
  | HIGH
deriving DecidableEq

/-- Numeric `.value` of each `Severity` member. -/
def Severity.value : Severity → Nat
  | .NO_SEVERITY => 0
  | .LOW => 1
  | .HIGH => 2

/-- Modelled from the spec: the `InspectorMessage` record of
`register_checks.py` (not under `src/`); construction requires `message` and
`importance`, all other fields optional with empty/none defaults, and `file`
is set only by the dispatcher. -/
structure InspectorMessage where
  message : String
  importance : Importance
  severity : Severity := .NO_SEVERITY
  check_function_name : String := ""
  object_type : String := ""
  object_name : String := ""
  location : String := ""
  file : Option String := none
deriving DecidableEq

/-- An object held by the NWB file container (`nwbfile.objects.values()`).
`type_tags` lists the names of the object's class and all its ancestor
classes, so that `issubclass(type(obj), T)` is embedded as `T ∈ obj.type_tags`. -/
structure NwbObject where
  obj_name : String := ""
  type_tags : List String := []
deriving DecidableEq

/-- The Python value returned (or raised) by one invocation
`check_function(nwbfile_object)`:
`retNone` = `None`, `retSingle` = a single `InspectorMessage`,
`retSeq` = a list of messages, `retStr` = a bare `str`
(which in Python IS an `Iterable`), `raises tb` = the call raised and
`traceback.format_exc()` is `tb`. -/
inductive CheckOutput
  | retNone
  | retSingle (m : InspectorMessage)
  | retSeq (ms : List InspectorMessage)
  | retStr (s : String)
  | raises (traceback : String)

/-- A registered check function as `run_checks` sees it: its `__name__`,
its (possibly configured) `importance`, its `neurodata_type` tag, and its
behavior on an object. -/
structure CheckDef where
  name : String
  importance : Importance
  neurodata_type : String
  behavior : NwbObject → CheckOutput

/-- One item yielded by the `run_checks` generator.  Since Python iterates a
bare string output character by character, the stream may also contain
characters (each a length-1 `str` in Python). -/
inductive StreamItem
  | msg (m : InspectorMessage)
  | chr (c : Char)
deriving DecidableEq

/-- The items produced for one `(check_function, nwbfile_object)` pair, i.e.
the body of the double loop of `run_checks` (nwbinspector.py lines 207-221):
exceptions are caught and converted into one ERROR message; then `output` is
yielded, element-wise when `isinstance(output, Iterable)` holds (which is the
case for lists and also for strings), directly otherwise. -/
def check_object_output (check_function : CheckDef) (nwbfile_object : NwbObject) : List StreamItem :=
  match check_function.behavior nwbfile_object with
  | .raises tb =>
      [.msg { message := tb, importance := .ERROR, check_function_name := check_function.name }]
  | .retNone => []
  | .retSingle m => [.msg m]
  | .retSeq ms => ms.map .msg
  | .retStr s => s.toList.map .chr

/-- Embedding of `run_checks` (nwbinspector.py lines 203-221): outer loop over
`checks`, inner loop over `nwbfile.objects.values()`, guarded by
`issubclass(type(nwbfile_object), check_function.neurodata_type)`. -/
def run_checks (nwbfile_objects : List NwbObject) (checks : List CheckDef) : List StreamItem :=
  checks.flatMap fun check_function =>
    nwbfile_objects.flatMap fun nwbfile_object =>
      if check_function.neurodata_type ∈ nwbfile_object.type_tags then
        check_object_output check_function nwbfile_object
      else []

/-- A registered check as held by the shared registry (`available_checks`):
the fields `configure_checks` reads and writes.  `name` is the immutable
`__name__`; `importance` is mutated in place by configuration. -/
structure Check where
  name : String
  importance : Importance
deriving DecidableEq

/-- A key of the configuration mapping: either the sentinel `"SKIP"` or an
importance-level name (the config schema admits no other keys, so
`Importance[importance_name]` cannot fail). -/
inductive ConfigKey
  | skip
  | level (imp : Importance)
deriving DecidableEq

/-- A configuration mapping, iterated in insertion order as `config.items()`. -/
abbrev Config := List (ConfigKey × List String)

/-- Replace the element at index `i` (no-op when out of range); used to model
in-place mutation of one cell of the shared registry. -/
def modifyAt : List α → Nat → (α → α) → List α
  | [], _, _ => []
  | x :: xs, 0, f => f x :: xs
  | x :: xs, n + 1, f => x :: modifyAt xs n f

/-- The inner loop of `configure_checks` (nwbinspector.py lines 194-198) for a
single check object: for every config item whose name list contains the
check's `__name__`, either `continue` (key `"SKIP"`: the importance
assignment is skipped, nothing else happens) or mutate `check.importance`. -/
def apply_config_to_check (config : Config) (check : Check) : Check :=
  config.foldl
    (fun ch kv =>
      if ch.name ∈ kv.2 then
        match kv.1 with
        | .skip => ch
        | .level imp => { ch with importance := imp }
      else ch)
    check

/-- Embedding of `configure_checks` (nwbinspector.py lines 191-200).  `checks`
is a list of references (indices) into the shared `registry`; the function
mutates each referenced cell in place and appends every reference — including
ones matched under `"SKIP"` — to `checks_out`.  Returns
`(checks_out, registry after the call)`. -/
def configure_checks (config : Config) (checks : List Nat) (registry : List Check) :
    List Nat × List Check :=
  match checks with
  | [] => ([], registry)
  | id :: rest =>
      let registry1 := modifyAt registry id (apply_config_to_check config)
      let p := configure_checks config rest registry1
      (id :: p.1, p.2)

/-- A Python exception escaping one of the embedded functions. -/
inductive PyErr
  | valueError (msg : String)
  | unboundLocalError
  | attributeError
deriving DecidableEq

/-- One element of the list returned by `pynwb.validate(io)`. -/
structure ValidationError where
  reason : String
  vname : String
  location : String
deriving DecidableEq

/-- The outcome of `io.read()` for a given input file: either the container's
flat object index, or a failure carrying `traceback.format_exc()` and the
textual form of the exception object `ex` (the source stores the exception
object itself into `check_function_name`). -/
inductive ReadResult
  | ok (nwbfile_objects : List NwbObject)
  | failed (traceback : String) (exc : String)
deriving DecidableEq

/-- One input file as `inspect_nwb` observes it: its path, the validator
findings, and the outcome of `io.read()`. -/
structure FileInput where
  path : String
  validation_errors : List ValidationError
  read_result : ReadResult
deriving DecidableEq

/-- The message yielded for one validator error (nwbinspector.py lines 268-273). -/
def validation_message (e : ValidationError) : InspectorMessage :=
  { message := e.reason
    importance := .PYNWB_VALIDATION
    check_function_name := e.vname
    location := e.location }

/-- The message yielded when `io.read()` raises (nwbinspector.py line 277):
`InspectorMessage(message=traceback.format_exc(), importance=ERROR,
check_function_name=ex)` — the exception object `ex` itself is stored, here
embedded by its textual form. -/
def read_error_message (traceback : String) (exc : String) : InspectorMessage :=
  { message := traceback
    importance := .ERROR
    check_function_name := exc }

/-- Python truthiness of an optional list (`if select:` / `elif ignore:`):
true exactly when present and non-empty. -/
def truthy : Option (List String) → Bool
  | none => false
  | some l => !l.isEmpty

/-- The final loop of `inspect_nwb` (lines 284-286): each item produced by
`run_checks` gets `inspector_message.file = nwbfile_path` assigned and is then
yielded.  When the item is a character of an iterated string (a Python `str`),
the attribute assignment raises `AttributeError`; the items yielded before it
are kept.  Returns `(yielded items, terminal exception if any)`. -/
def stamp_messages (path : String) : List StreamItem → List StreamItem × Option PyErr
  | [] => ([], none)
  | .msg m :: rest =>
      let p := stamp_messages path rest
      (.msg { m with file := some path } :: p.1, p.2)
  | .chr _ :: _ => ([], some .attributeError)

/-- Embedding of `inspect_nwb` (nwbinspector.py lines 224-286), as the run of
its generator: the pair of the yielded items and the terminal exception (if
the generator raises).  Control flow of the source:
usage check for `ignore`/`select` (line 257); the threshold-validity check of
lines 259-263 cannot fire here because `importance_threshold` is typed;
one message per validator error; `io.read()` in a `try`, a failure yielding
one ERROR message — after which execution falls through and
`run_checks(nwbfile, ...)` raises `UnboundLocalError` because `nwbfile` was
never assigned; `select`/`ignore` filtering by truthiness; check filtering by
`x.importance.value >= importance_threshold.value` (the enum member
`importance_threshold` is always truthy); finally the stamped `run_checks`
stream. -/
def inspect_nwb (file : FileInput) (checks : List CheckDef) (importance_threshold : Importance)
    (ignore select : Option (List String)) : List StreamItem × Option PyErr :=
  if ignore.isSome && select.isSome then
    ([], some (.valueError "Options \x27ignore\x27 and \x27select\x27 cannot both be used."))
  else
    let vmsgs : List StreamItem := file.validation_errors.map fun e => .msg (validation_message e)
    match file.read_result with
    | .failed tb exc =>
        (vmsgs ++ [.msg (read_error_message tb exc)], some .unboundLocalError)
    | .ok nwbfile =>
        let checks1 :=
          if truthy select then checks.filter fun x => decide (x.name ∈ select.getD [])
          else if truthy ignore then checks.filter fun x => decide (x.name ∉ ignore.getD [])
          else checks
        let checks2 := checks1.filter fun x => importance_threshold.value ≤ x.importance.value
        let p := stamp_messages file.path (run_checks nwbfile checks2)
        (vmsgs ++ p.1, p.2)

/-- Embedding of the per-file loop of `inspect_all` (nwbinspector.py lines
180-188): the files are consumed in order, each one's `inspect_nwb` generator
drained; an exception escaping `inspect_nwb` propagates out of `inspect_all`
and ends the batch (the path globbing, natural sorting and config loading of
lines 161-179 are outside the claims and not embedded). -/
def inspect_all (files : List FileInput) (checks : List CheckDef)
    (importance_threshold : Importance) (ignore select : Option (List String)) :
    List StreamItem × Option PyErr :=
  match files with
  | [] => ([], none)
  | f :: rest =>
      let p := inspect_nwb f checks importance_threshold ignore select
      match p.2 with
      | some err => (p.1, some err)
      | none =>
          let q := inspect_all rest checks importance_threshold ignore select
          (p.1 ++ q.1, q.2)

/-- A Python value used as key of an organized-results bucket: either an
`Importance` enum member (as produced by `organize_messages_by_file`) or a
plain string (as produced by `organize_check_results` in inspector_tools.py). -/
inductive PyKey
  | enumKey (imp : Importance)
  | strKey (s : String)
deriving DecidableEq

/-- Python `==` between two such values: an enum member never equals a `str`. -/
def pyKeyEq : PyKey → PyKey → Bool
  | .enumKey a, .enumKey b => decide (a = b)
  | .strKey a, .strKey b => decide (a = b)
  | _, _ => false

/-- Python `key in list_of_strings` for a bucket key. -/
def pyKeyInStrList (k : PyKey) (l : List String) : Bool :=
  l.any fun s => pyKeyEq k (.strKey s)

/-- Insert keeping the list sorted by `le`, after equal elements — combined
with `pySorted` this reproduces Python's stable `sorted`. -/
def insertLe (le : α → α → Bool) (x : α) : List α → List α
  | [] => [x]
  | y :: ys => if le y x then y :: insertLe le x ys else x :: y :: ys

/-- Stable sort by the boolean relation `le` (Python `sorted` with a key). -/
def pySorted (le : α → α → Bool) (l : List α) : List α :=
  l.foldl (fun acc x => insertLe le x acc) []

/-- First-occurrence deduplication, modelling `set(...)` before a `sorted`
imposes the order. -/
def dedupPy [DecidableEq α] (l : List α) : List α :=
  l.foldl (fun acc x => if x ∈ acc then acc else acc ++ [x]) []

/-- Ordering used to sort the `file` keys.  Python would raise comparing
`None` with a `str`; the claims only exercise runs whose messages carry
homogeneous `file` values, where this relation agrees with Python. -/
def fileKeyLe : Option String → Option String → Bool
  | none, _ => true
  | some _, none => false
  | some a, some b => decide (compare a b ≠ Ordering.gt)

/-- Embedding of `organize_messages_by_file` (nwbinspector.py lines 38-49):
files sorted ascending, then per file the importance buckets keyed by the
`Importance` enum members themselves (hence `.enumKey`), sorted by descending
`.value`, each bucket sorted by descending severity. -/
def organize_messages_by_file (messages : List InspectorMessage) :
    List (Option String × List (PyKey × List InspectorMessage)) :=
  let files := pySorted fileKeyLe (dedupPy (messages.map (·.file)))
  files.map fun file =>
    let file_messages := messages.filter fun x => decide (x.file = file)
    let importances :=
      pySorted (fun a b => b.value ≤ a.value) (dedupPy (file_messages.map (·.importance)))
    (file,
      importances.map fun importance =>
        (PyKey.enumKey importance,
          pySorted (fun a b => b.severity.value ≤ a.severity.value)
            (file_messages.filter fun x => decide (x.importance = importance))))

/-- Python `f"{x}"` for the `file` key (`None` renders as `"None"`). -/
def fileDisplay : Option String → String
  | none => "None"
  | some s => s

/-- A string of `n` copies of the character `c` (Python `"=" * n`). -/
def repeatChar (c : Char) (n : Nat) : String :=
  String.mk (List.replicate n c)

/-- Python `enumerate(l, start)`. -/
def enumFrom (start : Nat) : List α → List (Nat × α)
  | [] => []
  | x :: xs => (start, x) :: enumFrom (start + 1) xs

/-- Python `name.replace("_", " ")`: since the pattern is a single character,
replacement is a character-wise map. -/
def replaceUnderscores (s : String) : String :=
  String.mk (s.toList.map fun c => if c = Char.ofNat 95 then Char.ofNat 32 else c)

/-- The `.name` attribute of a bucket key: a `str` key has no such attribute
(`AttributeError`), mirroring line 44 of inspector_tools.py when the input
came from `organize_check_results`. -/
def pyKeyName : PyKey → Except PyErr String
  | .enumKey imp => .ok imp.pyname
  | .strKey _ => .error .attributeError

/-- The lines appended for the check results of one importance bucket
(inspector_tools.py lines 48-60): the administrative single-line template when
`importance_level in ["ERROR", "PYNWB_VALIDATION"]`, the two-line
normal template (one list element with an embedded newline) otherwise. -/
def format_bucket_entries (nwbfile_index importance_index : Nat)
    (importance_level : PyKey) (check_results : List InspectorMessage) : List String :=
  if pyKeyInStrList importance_level ["ERROR", "PYNWB_VALIDATION"] then
    (enumFrom 1 check_results).map fun ci =>
      let check_index := ci.1
      let r := ci.2
      let ot := r.object_type
      let loc := r.location
      let cfn := r.check_function_name
      let msg := r.message
      s!"{nwbfile_index}.{importance_index}.{check_index}   {ot} \x27{loc}\x27: {cfn}: {msg}\n"
  else
    (enumFrom 1 check_results).map fun ci =>
      let check_index := ci.1
      let r := ci.2
      let ot := r.object_type
      let onm := r.object_name
      let loc := r.location
      let cfn := r.check_function_name
      let msg := r.message
      s!"{nwbfile_index}.{importance_index}.{check_index}   {ot} \x27{onm}\x27 located in \x27{loc}\x27\n        {cfn}: {msg}\n"

/-- The lines appended for all importance buckets of one file
(inspector_tools.py lines 43-60): per bucket, `importance_level.name` is read
first (an `AttributeError` on a `str` key), then the heading lines and the
entry lines. -/
def format_file_buckets (nwbfile_index : Nat) :
    List (Nat × (PyKey × List InspectorMessage)) → Except PyErr (List String)
  | [] => .ok []
  | (importance_index, (importance_level, check_results)) :: rest => do
      let nm ← pyKeyName importance_level
      let importance_string := replaceUnderscores nm
      let here :=
        [s!"\n{importance_string}\n", repeatChar (Char.ofNat 45) importance_string.length ++ "\n"]
          ++ format_bucket_entries nwbfile_index importance_index importance_level check_results
      let there ← format_file_buckets nwbfile_index rest
      .ok (here ++ there)

/-- The lines appended for each file of the organized results
(inspector_tools.py lines 38-62), with the `\n\n\n` separator after every file
but the last. -/
def format_files (num_nwbfiles : Nat) :
    List (Nat × (Option String × List (PyKey × List InspectorMessage))) →
      Except PyErr (List String)
  | [] => .ok []
  | (nwbfile_index, (nwbfile_name, organized_check_results)) :: rest => do
      let nwbfile_name_string := s!"NWBFile: {fileDisplay nwbfile_name}"
      let head :=
        [nwbfile_name_string ++ "\n",
          repeatChar (Char.ofNat 61) nwbfile_name_string.length ++ "\n"]
      let buckets ← format_file_buckets nwbfile_index (enumFrom 1 organized_check_results)
      let sep : List String := if nwbfile_index ≠ num_nwbfiles then ["\n\n\n"] else []
      let more ← format_files num_nwbfiles rest
      .ok (head ++ buckets ++ sep ++ more)

/-- Embedding of `format_organized_results_output` (inspector_tools.py lines
34-63). -/
def format_organized_results_output
    (organized_results : List (Option String × List (PyKey × List InspectorMessage))) :
    Except PyErr (List String) :=
  format_files organized_results.length (enumFrom 1 organized_results)

/-! Concrete fixtures used by witnesses and counterexamples. -/

/-- A TimeSeries object of the container. -/
def objTS : NwbObject :=
  { obj_name := "ts1", type_tags := ["TimeSeries", "NWBDataInterface"] }

/-- A check whose invocation returns the bare string "ab". -/
def strCheck : CheckDef :=
  { name := "string_check", importance := .CRITICAL, neurodata_type := "TimeSeries",
    behavior := fun _ => .retStr "ab" }

/-- A check whose invocation raises. -/
def raisingCheck : CheckDef :=
  { name := "raising_check", importance := .CRITICAL, neurodata_type := "TimeSeries",
    behavior := fun _ => .raises "tb" }

/-- A check of the lowest importance whose invocation raises. -/
def lowCrashCheck : CheckDef :=
  { name := "low_check", importance := .BEST_PRACTICE_SUGGESTION,
    neurodata_type := "TimeSeries", behavior := fun _ => .raises "tb_low" }

/-- A file that opens and reads fine, holding one TimeSeries object. -/
def fileOk : FileInput :=
  { path := "a.nwb", validation_errors := [], read_result := .ok [objTS] }

/-- A file with one validator finding and no objects. -/
def fileVal : FileInput :=
  { path := "v.nwb",
    validation_errors := [{ reason := "bad", vname := "check_v", location := "/" }],
    read_result := .ok [] }

/-- A file whose `io.read()` raises. -/
def fileBad : FileInput :=
  { path := "bad.nwb", validation_errors := [],
    read_result := .failed "Traceback: boom" "OSError()" }

/-- A healthy file with a validator finding, placed after `fileBad` in a batch. -/
def fileGood : FileInput :=
  { path := "good.nwb",
    validation_errors := [{ reason := "v2", vname := "n2", location := "/" }],
    read_result := .ok [] }

/-- An ERROR-importance message as collected from a finished run. -/
def errMsgC6 : InspectorMessage :=
  { message := "boom", importance := .ERROR, check_function_name := "chk",
    object_type := "NWBFile", object_name := "root", location := "/",
    file := some "f.nwb" }

/-- The ERROR message produced when `lowCrashCheck` raises during a run on
`fileOk`, after the dispatcher stamped its `file` field. -/
def errLowMsg : InspectorMessage :=
  { message := "tb_low", importance := .ERROR, check_function_name := "low_check",
    file := some "a.nwb" }

/-! Helper lemmas (shared; not themselves claim theorems). -/

theorem run_checks_append (objs : List NwbObject) (cs1 cs2 : List CheckDef) :
    run_checks objs (cs1 ++ cs2) = run_checks objs cs1 ++ run_checks objs cs2 := by
  simp [run_checks]

theorem modifyAt_getElem?_self (l : List α) (i : Nat) (f : α → α) :
    (modifyAt l i f)[i]? = (l[i]?).map f := by
  induction l generalizing i with
  | nil => simp [modifyAt]
  | cons x xs ih =>
    cases i with
    | zero => simp [modifyAt]
    | succ n => simp [modifyAt, ih]

theorem modifyAt_getElem?_ne (l : List α) (i j : Nat) (f : α → α) (h : i ≠ j) :
    (modifyAt l i f)[j]? = l[j]? := by
  induction l generalizing i j with
  | nil => simp [modifyAt]
  | cons x xs ih =>
    cases i with
    | zero =>
      cases j with
      | zero => exact absurd rfl h
      | succ m => simp [modifyAt]
    | succ n =>
      cases j with
      | zero => simp [modifyAt]
      | succ m =>
        simp only [modifyAt, List.getElem?_cons_succ]
        exact ih n m (fun hh => h (by rw [hh]))

theorem configure_checks_fst (config : Config) (ids : List Nat) (registry : List Check) :
    (configure_checks config ids registry).1 = ids := by
  induction ids generalizing registry with
  | nil => rfl
  | cons a rest ih => simp [configure_checks, ih]

theorem configure_checks_getElem? (config : Config) (ids : List Nat) :
    ∀ registry : List Check, ids.Nodup → ∀ i : Nat,
      (configure_checks config ids registry).2[i]?
        = if i ∈ ids then (registry[i]?).map (apply_config_to_check config)
          else registry[i]? := by
  induction ids with
  | nil =>
    intro registry _ i
    simp [configure_checks]
  | cons a rest ih =>
    intro registry hnd i
    rcases List.nodup_cons.mp hnd with ⟨ha, hrest⟩
    simp only [configure_checks]
    rw [ih _ hrest i]
    by_cases hia : i = a
    · subst hia
      simp [ha, modifyAt_getElem?_self]
    · have hne : a ≠ i := fun hh => hia hh.symm
      by_cases hmem : i ∈ rest
      · simp [hmem, hia, modifyAt_getElem?_ne _ a i _ hne]
      · simp [hmem, hia, modifyAt_getElem?_ne _ a i _ hne]

theorem apply_config_single_level (L : Importance) (names : List String) (c : Check)
    (h : c.name ∈ names) :
    apply_config_to_check [(.level L, names)] c = { c with importance := L } := by
  simp [apply_config_to_check, h]

theorem apply_config_unmentioned (config : Config) (c : Check)
    (h : ∀ kv ∈ config, c.name ∉ kv.2) :
    apply_config_to_check config c = c := by
  induction config with
  | nil => rfl
  | cons kv rest ih =>
    have h1 : c.name ∉ kv.2 := h kv (List.mem_cons_self kv rest)
    have h2 : ∀ kv2 ∈ rest, c.name ∉ kv2.2 := fun kv2 hm => h kv2 (List.mem_cons_of_mem _ hm)
    unfold apply_config_to_check at ih ⊢
    rw [List.foldl_cons, if_neg h1]
    exact ih h2

theorem stamp_messages_mem (path : String) (items : List StreamItem) :
    ∀ item ∈ (stamp_messages path items).1, ∃ m, item = .msg m ∧ m.file = some path := by
  induction items with
  | nil =>
    intro item h
    simp [stamp_messages] at h
  | cons x rest ih =>
    cases x with
    | msg m =>
      intro item h
      simp only [stamp_messages, List.mem_cons] at h
      rcases h with h | h
      · exact ⟨_, h, rfl⟩
      · exact ih item h
    | chr ch =>
      intro item h
      simp [stamp_messages] at h

theorem stamp_messages_snd_not_valueError (path : String) (items : List StreamItem)
    (s : String) : (stamp_messages path items).2 ≠ some (.valueError s) := by
  induction items with
  | nil => simp [stamp_messages]
  | cons x rest ih =>
    cases x with
    | msg m => simpa [stamp_messages] using ih
    | chr ch => simp [stamp_messages]

theorem inspect_nwb_ok_eq (file : FileInput) (checks : List CheckDef) (thr : Importance)
    (nwbfile : List NwbObject) (h : file.read_result = .ok nwbfile) :
    inspect_nwb file checks thr none none
      = ((file.validation_errors.map fun e => .msg (validation_message e))
          ++ (stamp_messages file.path (run_checks nwbfile
                (checks.filter fun x => thr.value ≤ x.importance.value))).1,
         (stamp_messages file.path (run_checks nwbfile
                (checks.filter fun x => thr.value ≤ x.importance.value))).2) := by
  simp [inspect_nwb, h, truthy]

theorem inspect_nwb_failed_eq (file : FileInput) (checks : List CheckDef)
    (thr : Importance) (tb exc : String) (h : file.read_result = .failed tb exc) :
    inspect_nwb file checks thr none none
      = ((file.validation_errors.map fun e => .msg (validation_message e))
          ++ [.msg (read_error_message tb exc)], some .unboundLocalError) := by
  simp [inspect_nwb, h, truthy]

/-! Claim theorems. -/

/-- C1: the claim fails on the code.  At the failing input
`config = [("SKIP", ["check_a"])]` with the registry holding the single check
`check_a`, `configure_checks` still returns the reference to `check_a` in
`checks_out` (the `continue` only exits the inner loop over config items,
skipping the importance assignment), and leaves the registry untouched: the
`SKIP` key is a complete no-op instead of removing the rule from execution. -/
theorem configure_checks_skip_keeps_check :
    configure_checks [(.skip, ["check_a"])] [0]
        [{ name := "check_a", importance := .CRITICAL }]
      = ([0], [{ name := "check_a", importance := .CRITICAL }]) := by
  decide

/-- C3 counterexample: a rule returning the bare string "ab" on a matched
object makes `run_checks` yield two items (the characters), not a single
item — strings are not excluded from the sequence-normalization rule. -/
theorem run_checks_string_output_iterated :
    run_checks [objTS] [strCheck] = [.chr ('a'), .chr ('b')]
      ∧ (run_checks [objTS] [strCheck]).length ≠ 1 := by
  decide

/-- C3 (amended): output normalization in `run_checks`: `None` yields
nothing, a sequence of k messages yields those k items in order, a
non-iterable single result yields one item — but a bare string is NOT
excluded: being a Python `Iterable`, it is iterated character by character. -/
theorem check_output_normalization (check : CheckDef) (obj : NwbObject)
    (hmatch : check.neurodata_type ∈ obj.type_tags) :
    run_checks [obj] [check] = check_object_output check obj
    ∧ (check.behavior obj = .retNone → check_object_output check obj = [])
    ∧ (∀ m, check.behavior obj = .retSingle m → check_object_output check obj = [.msg m])
    ∧ (∀ ms, check.behavior obj = .retSeq ms →
        check_object_output check obj = ms.map .msg)
    ∧ (∀ s, check.behavior obj = .retStr s →
        check_object_output check obj = s.toList.map .chr) := by
  refine ⟨?_, ?_, ?_, ?_, ?_⟩
  · simp [run_checks, hmatch]
  all_goals intros
  all_goals simp [check_object_output, *]

/-- Witness for the C3 amended theorem at the concrete fixture. -/
theorem check_output_normalization_witness :
    run_checks [objTS] [strCheck] = check_object_output strCheck objTS
    ∧ check_object_output strCheck objTS = ("ab").toList.map .chr := by
  have h := check_output_normalization strCheck objTS (by decide)
  exact ⟨h.1, h.2.2.2.2 ("ab") rfl⟩

/-- C4: rule invocation is isolated.  The contribution of a check `c` sits
between the contributions of the checks before and after it (so evaluation
of subsequent (object, check) pairs continues unchanged), and for every
object on which `c` raises, the pair produces exactly one message with
importance ERROR, `check_function_name` the failing rule's name and `message`
the captured stack-trace text. -/
theorem run_checks_isolates_rule_exceptions (objs : List NwbObject)
    (cs1 cs2 : List CheckDef) (c : CheckDef) :
    run_checks objs (cs1 ++ c :: cs2)
      = run_checks objs cs1 ++ run_checks objs [c] ++ run_checks objs cs2
    ∧ (∀ (o1 : NwbObject) (os : List NwbObject),
        run_checks (o1 :: os) [c]
          = (if c.neurodata_type ∈ o1.type_tags then check_object_output c o1 else [])
              ++ run_checks os [c])
    ∧ ∀ o tb, c.behavior o = .raises tb →
        check_object_output c o
          = [.msg { message := tb, importance := .ERROR, check_function_name := c.name }] := by
  refine ⟨?_, ?_, ?_⟩
  · rw [show cs1 ++ c :: cs2 = cs1 ++ [c] ++ cs2 by simp,
      run_checks_append, run_checks_append]
  · intro o1 os
    simp [run_checks]
  · intro o tb h
    simp [check_object_output, h]

/-- Witness for C4 at the concrete fixture. -/
theorem run_checks_isolates_rule_exceptions_witness :
    run_checks [objTS] ([strCheck] ++ raisingCheck :: [])
      = run_checks [objTS] [strCheck] ++ run_checks [objTS] [raisingCheck]
          ++ run_checks [objTS] []
    ∧ run_checks [objTS] [raisingCheck]
      = (if raisingCheck.neurodata_type ∈ objTS.type_tags then
          check_object_output raisingCheck objTS else []) ++ run_checks [] [raisingCheck]
    ∧ check_object_output raisingCheck objTS
      = [.msg { message := "tb", importance := .ERROR, check_function_name := "raising_check" }] := by
  have h := run_checks_isolates_rule_exceptions [objTS] [strCheck] [] raisingCheck
  exact ⟨h.1, h.2.1 objTS [], h.2.2 objTS "tb" rfl⟩

/-- C9: `configure_checks` assigns the configured importance to the shared
check object in place: the returned list holds the same references as the
input, the cell of the original (canonical) registry observes the new
importance after the call, and a second run in the same process with a
different configuration (one not mentioning the check) still observes the
leftover importance from the first run. -/
theorem configure_checks_mutates_shared_state
    (ids : List Nat) (registry : List Check) (hnd : ids.Nodup)
    (i : Nat) (hmem : i ∈ ids) (c : Check) (hcell : registry[i]? = some c)
    (L : Importance) (names : List String) (hname : c.name ∈ names) :
    (configure_checks [(.level L, names)] ids registry).1 = ids
    ∧ (configure_checks [(.level L, names)] ids registry).2[i]?
        = some { c with importance := L }
    ∧ ∀ config2 : Config, (∀ kv ∈ config2, c.name ∉ kv.2) →
        (configure_checks config2 ids
            (configure_checks [(.level L, names)] ids registry).2).2[i]?
          = some { c with importance := L } := by
  have h1 := configure_checks_getElem? [(.level L, names)] ids registry hnd i
  rw [if_pos hmem, hcell] at h1
  simp only [Option.map_some', apply_config_single_level L names c hname] at h1
  refine ⟨configure_checks_fst _ _ _, h1, ?_⟩
  intro config2 h2
  have h3 := configure_checks_getElem? config2 ids
    (configure_checks [(.level L, names)] ids registry).2 hnd i
  rw [if_pos hmem, h1] at h3
  rw [h3]
  simp only [Option.map_some']
  rw [apply_config_unmentioned config2 { name := c.name, importance := L } h2]

/-- Witness for C9: a first run configures `check_a` to CRITICAL in place; a
second run whose configuration mentions only `other_check` still observes
CRITICAL on the canonical registry cell. -/
theorem configure_checks_mutates_shared_state_witness :
    (configure_checks [(.level .CRITICAL, ["check_a"])] [0]
        [{ name := "check_a", importance := .BEST_PRACTICE_SUGGESTION }]).2[0]?
      = some { name := "check_a", importance := .CRITICAL }
    ∧ (configure_checks [(.level .BEST_PRACTICE_VIOLATION, ["other_check"])] [0]
        (configure_checks [(.level .CRITICAL, ["check_a"])] [0]
          [{ name := "check_a", importance := .BEST_PRACTICE_SUGGESTION }]).2).2[0]?
      = some { name := "check_a", importance := .CRITICAL } := by
  have h := configure_checks_mutates_shared_state [0]
    [{ name := "check_a", importance := .BEST_PRACTICE_SUGGESTION }] (by decide) 0 (by decide)
    { name := "check_a", importance := .BEST_PRACTICE_SUGGESTION } (by decide)
    .CRITICAL ["check_a"] (by decide)
  exact ⟨h.2.1, h.2.2 [(.level .BEST_PRACTICE_VIOLATION, ["other_check"])] (by decide)⟩

/-- C2: the claim fails on the code.  With a batch of two files where the
first one's `io.read()` raises, `inspect_nwb` yields the single ERROR message
and then raises `UnboundLocalError` — the source falls through to
`run_checks(nwbfile, checks=checks)` with the local `nwbfile` never assigned —
and the exception propagates out of `inspect_all`, so the second file, whose
validator finding would otherwise be reported, is never processed. -/
theorem inspect_all_read_failure_aborts_batch :
    inspect_all [fileBad, fileGood] [] .BEST_PRACTICE_SUGGESTION none none
      = ([.msg (read_error_message "Traceback: boom" "OSError()")],
          some .unboundLocalError)
    ∧ .msg (validation_message { reason := "v2", vname := "n2", location := "/" })
        ∉ (inspect_all [fileBad, fileGood] [] .BEST_PRACTICE_SUGGESTION none none).1 := by
  decide

/-- C5 counterexample: a run over a single crashing check of the lowest
importance yields an ERROR-importance message at the base threshold, but the
same run with threshold CRITICAL does not contain that message — an
administrative ERROR message does not always pass through the threshold. -/
theorem threshold_drops_error_message :
    .msg errLowMsg
      ∈ (inspect_nwb fileOk [lowCrashCheck] .BEST_PRACTICE_SUGGESTION none none).1
    ∧ errLowMsg.importance = .ERROR
    ∧ .msg errLowMsg ∉ (inspect_nwb fileOk [lowCrashCheck] .CRITICAL none none).1 := by
  decide

/-- C5 (amended): `importance_threshold` filtering is applied to the checks
before execution — a check runs iff its registered importance value is at
least the threshold's value — not to the resulting messages.  Validator
(PYNWB_VALIDATION) messages and the file-read ERROR message are yielded
before the filter and appear at every threshold; messages of rules, including
ERROR messages synthesized for crashing rules, appear iff their check
survives the filter. -/
theorem inspect_nwb_threshold_filters_checks (file : FileInput)
    (checks : List CheckDef) (thr : Importance) :
    (∀ nwbfile, file.read_result = .ok nwbfile →
      inspect_nwb file checks thr none none
        = ((file.validation_errors.map fun e => .msg (validation_message e))
            ++ (stamp_messages file.path (run_checks nwbfile
                  (checks.filter fun x => thr.value ≤ x.importance.value))).1,
           (stamp_messages file.path (run_checks nwbfile
                  (checks.filter fun x => thr.value ≤ x.importance.value))).2))
    ∧ (∀ tb exc, file.read_result = .failed tb exc →
      inspect_nwb file checks thr none none
        = ((file.validation_errors.map fun e => .msg (validation_message e))
            ++ [.msg (read_error_message tb exc)], some .unboundLocalError))
    ∧ (∀ e ∈ file.validation_errors,
        .msg (validation_message e) ∈ (inspect_nwb file checks thr none none).1) := by
  refine ⟨fun nwbfile h => inspect_nwb_ok_eq file checks thr nwbfile h,
    fun tb exc h => inspect_nwb_failed_eq file checks thr tb exc h, ?_⟩
  intro e he
  have hmem : (.msg (validation_message e) : StreamItem)
      ∈ file.validation_errors.map fun e2 => StreamItem.msg (validation_message e2) :=
    List.mem_map_of_mem _ he
  cases hr : file.read_result with
  | ok nwbfile =>
    rw [inspect_nwb_ok_eq file checks thr nwbfile hr]
    exact List.mem_append_left _ hmem
  | failed tb exc =>
    rw [inspect_nwb_failed_eq file checks thr tb exc hr]
    exact List.mem_append_left _ hmem

/-- Witness for the C5 amended theorem: at threshold CRITICAL the lone
BEST_PRACTICE_SUGGESTION check is filtered out before execution. -/
theorem inspect_nwb_threshold_filters_checks_witness :
    inspect_nwb fileOk [lowCrashCheck] .CRITICAL none none
      = ((fileOk.validation_errors.map fun e => .msg (validation_message e))
          ++ (stamp_messages fileOk.path (run_checks [objTS]
                ([lowCrashCheck].filter fun x =>
                  Importance.CRITICAL.value ≤ x.importance.value))).1,
         (stamp_messages fileOk.path (run_checks [objTS]
                ([lowCrashCheck].filter fun x =>
                  Importance.CRITICAL.value ≤ x.importance.value))).2) :=
  (inspect_nwb_threshold_filters_checks fileOk [lowCrashCheck] .CRITICAL).1 [objTS] rfl

/-- C7 counterexample: at a file with one validator finding, the yielded
PYNWB_VALIDATION message has `file = none` (the constructed default), not the
current file path — the dispatcher stamps only the rule messages. -/
theorem validation_message_file_not_stamped :
    (inspect_nwb fileVal [] .BEST_PRACTICE_SUGGESTION none none).1
      = [.msg (validation_message { reason := "bad", vname := "check_v", location := "/" })]
    ∧ (validation_message { reason := "bad", vname := "check_v", location := "/" }).file
        ≠ some ("v.nwb") := by
  decide

/-- C7 (amended): only rule messages get the `file` field stamped by the
dispatcher.  For a file that reads successfully, every yielded item is either
a validator message, whose `file` field keeps the default `none`, or a rule
message stamped with `file` equal to the current file path; for a file whose
`io.read()` raises, every yielded item is either such a validator message or
the single read-failure ERROR message, whose `file` field also keeps the
default `none`. -/
theorem inspect_nwb_stamps_only_rule_messages (file : FileInput)
    (checks : List CheckDef) (thr : Importance) :
    (∀ nwbfile, file.read_result = .ok nwbfile →
      ∀ item ∈ (inspect_nwb file checks thr none none).1,
        (∃ e, e ∈ file.validation_errors ∧ item = .msg (validation_message e)
            ∧ (validation_message e).file = none)
        ∨ (∃ m, item = .msg m ∧ m.file = some file.path))
    ∧ (∀ tb exc, file.read_result = .failed tb exc →
      ∀ item ∈ (inspect_nwb file checks thr none none).1,
        (∃ e, e ∈ file.validation_errors ∧ item = .msg (validation_message e)
            ∧ (validation_message e).file = none)
        ∨ (item = .msg (read_error_message tb exc)
            ∧ (read_error_message tb exc).file = none)) := by
  constructor
  · intro nwbfile h item hitem
    rw [inspect_nwb_ok_eq file checks thr nwbfile h] at hitem
    rcases List.mem_append.mp hitem with h1 | h1
    · rcases List.mem_map.mp h1 with ⟨e, he, rfl⟩
      exact Or.inl ⟨e, he, rfl, rfl⟩
    · exact Or.inr (stamp_messages_mem _ _ item h1)
  · intro tb exc h item hitem
    rw [inspect_nwb_failed_eq file checks thr tb exc h] at hitem
    rcases List.mem_append.mp hitem with h1 | h1
    · rcases List.mem_map.mp h1 with ⟨e, he, rfl⟩
      exact Or.inl ⟨e, he, rfl, rfl⟩
    · rcases List.mem_singleton.mp h1 with rfl
      exact Or.inr ⟨rfl, rfl⟩

/-- Witness for the C7 amended theorem: the ok-read branch at the concrete
validator-only file, and the failed-read branch at the concrete bad file,
whose ERROR message keeps `file = none`. -/
theorem inspect_nwb_stamps_only_rule_messages_witness :
    ((∃ e, e ∈ fileVal.validation_errors
        ∧ StreamItem.msg (validation_message { reason := "bad", vname := "check_v", location := "/" })
            = .msg (validation_message e)
        ∧ (validation_message e).file = none)
      ∨ (∃ m, StreamItem.msg (validation_message { reason := "bad", vname := "check_v", location := "/" })
            = .msg m ∧ m.file = some fileVal.path))
    ∧ ((∃ e, e ∈ fileBad.validation_errors
        ∧ StreamItem.msg (read_error_message "Traceback: boom" "OSError()")
            = .msg (validation_message e)
        ∧ (validation_message e).file = none)
      ∨ (StreamItem.msg (read_error_message "Traceback: boom" "OSError()")
            = .msg (read_error_message "Traceback: boom" "OSError()")
          ∧ (read_error_message "Traceback: boom" "OSError()").file = none)) :=
  ⟨(inspect_nwb_stamps_only_rule_messages fileVal [] .BEST_PRACTICE_SUGGESTION).1 [] rfl
      (.msg (validation_message { reason := "bad", vname := "check_v", location := "/" }))
      (by decide),
    (inspect_nwb_stamps_only_rule_messages fileBad [] .BEST_PRACTICE_SUGGESTION).2
      "Traceback: boom" "OSError()" rfl
      (.msg (read_error_message "Traceback: boom" "OSError()")) (by decide)⟩

/-- C8: supplying both `ignore` and `select` fails with the usage ValueError
before any file is opened or any rule is run — nothing is yielded, and the
result does not depend on the file at all; with at most one of them supplied,
no ValueError of any kind is raised. -/
theorem inspect_nwb_ignore_select_mutually_exclusive
    (checks : List CheckDef) (thr : Importance) :
    (∀ (f g : FileInput) (ig sel : List String),
        inspect_nwb f checks thr (some ig) (some sel)
          = ([], some (.valueError "Options \x27ignore\x27 and \x27select\x27 cannot both be used."))
        ∧ inspect_nwb f checks thr (some ig) (some sel)
            = inspect_nwb g checks thr (some ig) (some sel))
    ∧ (∀ (f : FileInput) (ignore select : Option (List String)),
        ignore = none ∨ select = none →
        ∀ s, (inspect_nwb f checks thr ignore select).2 ≠ some (.valueError s)) := by
  constructor
  · intro f g ig sel
    exact ⟨rfl, rfl⟩
  · intro f ignore select hor s
    have hcond : (ignore.isSome && select.isSome) = false := by
      rcases hor with h | h <;> subst h <;> simp
    cases hr : f.read_result with
    | ok nwbfile =>
      simp only [inspect_nwb, hcond, Bool.false_eq_true, if_false, hr]
      exact stamp_messages_snd_not_valueError _ _ s
    | failed tb exc =>
      simp [inspect_nwb, hcond, hr]

/-- Witness for C8 at concrete option values. -/
theorem inspect_nwb_ignore_select_mutually_exclusive_witness :
    inspect_nwb fileOk [] .BEST_PRACTICE_SUGGESTION (some ["a_check"]) (some ["b_check"])
      = ([], some (.valueError "Options \x27ignore\x27 and \x27select\x27 cannot both be used."))
    ∧ (inspect_nwb fileOk [] .BEST_PRACTICE_SUGGESTION none (some ["b_check"])).2
        ≠ some (.valueError "anything") := by
  have h := inspect_nwb_ignore_select_mutually_exclusive [] .BEST_PRACTICE_SUGGESTION
  exact ⟨(h.1 fileOk fileOk ["a_check"] ["b_check"]).1,
    h.2 fileOk none (some ["b_check"]) (Or.inl rfl) "anything"⟩

/-- C10: `select=[]` (the empty list, with `ignore` absent) applies no
allow-list filtering at all: the empty list is falsy in `if select:`, so the
run is identical to the run with `select=None` — every otherwise eligible
check still runs. -/
theorem inspect_nwb_empty_select_no_filter (file : FileInput)
    (checks : List CheckDef) (thr : Importance) :
    inspect_nwb file checks thr none (some []) = inspect_nwb file checks thr none none := by
  cases hr : file.read_result with
  | ok nwbfile => simp [inspect_nwb, hr, truthy]
  | failed tb exc => simp [inspect_nwb, hr, truthy]

/-- C6: the claim fails on the code.  An organized result set with an ERROR
bucket is rendered with the NORMAL template (showing `object_name` and the
message indented on its own line): the bucket keys produced by
`organize_messages_by_file` are `Importance` enum members, and the source's
`importance_level in ["ERROR", "PYNWB_VALIDATION"]` compares an enum member
against strings, which is never true, so the administrative line template is
never used. -/
theorem format_error_bucket_uses_normal_template :
    format_organized_results_output (organize_messages_by_file [errMsgC6])
      = .ok ["NWBFile: f.nwb\n", "==============\n", "\nERROR\n", "-----\n",
          "1.1.1   NWBFile \x27root\x27 located in \x27/\x27\n        chk: boom\n"]
    ∧ pyKeyInStrList (.enumKey .ERROR) ["ERROR", "PYNWB_VALIDATION"] = false := by
  exact ⟨rfl, rfl⟩

end NwbInspector
